import Mathlib

/-!
Shallow embedding of the Closetly virtual try-on composition pipeline
(`src/unnamed/part_000`): placement policy, background stripper,
procedural model renderer, compositor and remote-adapter gating.
Machine numbers are modelled as exact rationals; image decoding and the
remote generative service are oracles passed in as functions.
-/

namespace Closetly

/-- Normalized placement rectangle, fractions of the target canvas
(source `interface PlacementBox`, lines 20-26). -/
structure PlacementBox where
  x : ℚ
  y : ℚ
  width : ℚ
  height : ℚ
  rotationDeg : ℚ
deriving DecidableEq, Repr

/-- Source `clamp01` (lines 101-104): a non-number (or NaN) input, modelled
as `none`, is mapped to 0; otherwise the value is clamped into [0,1]. -/
def clamp01 (v : Option ℚ) : ℚ :=
  match v with
  | none => 0
  | some x => max 0 (min 1 x)

/-- Source `isValidBox` (lines 106-114): all coordinate fractions in
[0,1], strictly positive width/height, and area at least 0.02. -/
def isValidBox (box : PlacementBox) : Bool :=
  decide (0 ≤ box.x ∧ box.x ≤ 1 ∧
          0 ≤ box.y ∧ box.y ≤ 1 ∧
          0 < box.width ∧ box.width ≤ 1 ∧
          0 < box.height ∧ box.height ≤ 1 ∧
          2/100 ≤ box.width * box.height)

/-- Source `getDefaultBox` (lines 116-134): the deterministic placement
table, keyed by the garment-type string; the switch also accepts the
alias string "tshirt" on the same case as "top", and every other string
falls through to the default box. -/
def getDefaultBox (garmentType : String) : PlacementBox :=
  if garmentType = "dress" then
    { x := 0.225, y := 0.08, width := 0.55, height := 0.82, rotationDeg := 0 }
  else if garmentType = "tshirt" ∨ garmentType = "top" then
    { x := 0.25, y := 0.18, width := 0.5, height := 0.4, rotationDeg := 0 }
  else if garmentType = "pants" then
    { x := 0.25, y := 0.35, width := 0.5, height := 0.45, rotationDeg := 0 }
  else if garmentType = "shorts" then
    { x := 0.25, y := 0.35, width := 0.5, height := 0.25, rotationDeg := 0 }
  else if garmentType = "footwear" then
    { x := 0.35, y := 0.78, width := 0.3, height := 0.18, rotationDeg := 0 }
  else if garmentType = "accessory" then
    { x := 0.4, y := 0.1, width := 0.2, height := 0.2, rotationDeg := 0 }
  else
    { x := 0.25, y := 0.2, width := 0.5, height := 0.5, rotationDeg := 0 }

/-- Parsed JSON fields of the AI placement response; a field that is not
a number in the JSON is `none` (source reads `json.x` etc., lines 81-87). -/
structure AIPlacementJson where
  x : Option ℚ
  y : Option ℚ
  width : Option ℚ
  height : Option ℚ
  rotationDeg : Option ℚ
deriving DecidableEq, Repr

/-- Result-processing tail of source `estimateGarmentPlacement`
(lines 77-99): the model response is parsed (an unparsable response is
modelled as `none`), each coordinate is clamped by `clamp01`, and the box
is replaced by `getDefaultBox garmentType` when it fails `isValidBox` or
when parsing failed; no error escapes to the caller. -/
def estimateGarmentPlacement (garmentType : String)
    (response : Option AIPlacementJson) : PlacementBox :=
  match response with
  | none => getDefaultBox garmentType
  | some json =>
    let box : PlacementBox :=
      { x := clamp01 json.x
        y := clamp01 json.y
        width := clamp01 json.width
        height := clamp01 json.height
        rotationDeg := json.rotationDeg.getD 0 }
    if isValidBox box then box else getDefaultBox garmentType

/-- JavaScript `Math.round`: round half toward positive infinity. -/
def jsRound (q : ℚ) : ℤ := ⌊q + 1/2⌋

/-- Per-pixel alpha update of the background-removal loop in source
`drawGarmentWithBgRemoval` (lines 566-597): brightness is the Rec.601
luma, contrast the channel spread, saturation the spread over
max+0.001; a pixel classified as background gets alpha 0, every other
pixel gets alpha `min 255 (round (0.99 * a))`. -/
def stripPixelAlpha (r g b a : ℕ) : ℕ :=
  let brightness : ℚ := 0.299 * r + 0.587 * g + 0.114 * b
  let maxRGB : ℚ := max (r : ℚ) (max (g : ℚ) (b : ℚ))
  let minRGB : ℚ := min (r : ℚ) (min (g : ℚ) (b : ℚ))
  let contrast : ℚ := maxRGB - minRGB
  let saturation : ℚ := contrast / (maxRGB + 0.001)
  if brightness > 230 ∧ contrast < 25 then 0
  else if brightness > 210 ∧ contrast < 20 ∧ saturation < 0.15 then 0
  else if (r : ℚ) > 245 ∧ (g : ℚ) > 245 ∧ (b : ℚ) > 245 then 0
  else min 255 (jsRound ((a : ℚ) * 0.99)).toNat

/-- One RGBA pixel with byte channels. -/
structure Pixel where
  r : ℕ
  g : ℕ
  b : ℕ
  a : ℕ
deriving DecidableEq, Repr

/-- The whole-buffer pass of the background-removal loop: every pixel
keeps its color channels and gets the stripped alpha. -/
def stripImageAlpha (pixels : List Pixel) : List Pixel :=
  pixels.map (fun p => { p with a := stripPixelAlpha p.r p.g p.b p.a })

/-- Background classification predicate of the stripper, as the claim
states it: the disjunction of the three removal conditions. -/
def isBackgroundPixel (r g b : ℕ) : Prop :=
  let brightness : ℚ := 0.299 * r + 0.587 * g + 0.114 * b
  let maxRGB : ℚ := max (r : ℚ) (max (g : ℚ) (b : ℚ))
  let minRGB : ℚ := min (r : ℚ) (min (g : ℚ) (b : ℚ))
  let contrast : ℚ := maxRGB - minRGB
  let saturation : ℚ := contrast / (maxRGB + 0.001)
  (brightness > 230 ∧ contrast < 25) ∨
  (brightness > 210 ∧ contrast < 20 ∧ saturation < 0.15) ∨
  ((r : ℚ) > 245 ∧ (g : ℚ) > 245 ∧ (b : ℚ) > 245)

instance (r g b : ℕ) : Decidable (isBackgroundPixel r g b) := by
  unfold isBackgroundPixel
  infer_instance

/-- Gender parameter of the try-on call (source union type
"male" | "female" | "any"). -/
inductive Gender where
  | male
  | female
  | any
deriving DecidableEq, Repr

/-- Source `interface GarmentInput` (lines 143-147); the `File` handle is
reached only through the image-loading oracle, keyed by the url. -/
structure GarmentInput where
  url : String
  type : String
deriving DecidableEq, Repr

/-- A decoded in-memory image; the tag identifies which source bytes it
decoded from. -/
structure Img where
  width : ℕ
  height : ℕ
  tag : String
deriving DecidableEq, Repr

/-- Flat-color shape emitted by the procedural model renderer. -/
inductive Shape where
  | gradientRect (x y w h : ℚ)
  | rect (color : String) (x y w h : ℚ)
  | ellipse (color : String) (cx cy rx ry rot : ℚ)
  | poly (color : String) (pts : List (ℚ × ℚ))
deriving DecidableEq, Repr

/-- Shoulder polygon vertices of source `createStandardModelImage`
(lines 704-723), with the canvas center at x = 400/2 = 200. -/
def shoulderPoints (gender : Gender) : List (ℚ × ℚ) :=
  match gender with
  | .male => [(200 - 55, 145), (200 - 42, 170), (200 + 42, 170), (200 + 55, 145)]
  | .female => [(200 - 48, 145), (200 - 38, 170), (200 + 38, 170), (200 + 48, 145)]
  | .any => [(200 - 50, 145), (200 - 40, 170), (200 + 40, 170), (200 + 50, 145)]

/-- Torso polygon vertices of source `createStandardModelImage`
(lines 728-747). -/
def torsoPoints (gender : Gender) : List (ℚ × ℚ) :=
  match gender with
  | .male => [(200 - 42, 170), (200 - 38, 330), (200 + 38, 330), (200 + 42, 170)]
  | .female => [(200 - 40, 170), (200 - 32, 330), (200 + 32, 330), (200 + 40, 170)]
  | .any => [(200 - 40, 170), (200 - 35, 330), (200 + 35, 330), (200 + 40, 170)]

/-- Head ellipse radii (lines 654-663). -/
def headRadii (gender : Gender) : ℚ × ℚ :=
  match gender with
  | .male => (32, 38)
  | .female => (30, 40)
  | .any => (31, 39)

/-- Hair ellipse center-y and radii (lines 669-678). -/
def hairEllipse (gender : Gender) : ℚ × ℚ × ℚ :=
  match gender with
  | .male => (70, 32, 20)
  | .female => (65, 35, 28)
  | .any => (67, 33, 24)

/-- Procedural model image: fixed canvas plus the emitted shape list. -/
structure RenderedModel where
  width : ℕ
  height : ℕ
  shapes : List Shape
deriving DecidableEq, Repr

/-- Source `createStandardModelImage` (lines 619-793): a 400x600 canvas
painted with a studio-gradient background, a floor shadow, then the
figure (head, hair, face features, neck, shoulders, torso, arms, hands,
legs, feet) with gender-dependent head/hair/shoulder/torso parameters
and hair color. -/
def createStandardModelImage (gender : Gender) : RenderedModel :=
  let skinTone := "#f4a261"
  let hairColor := if gender = .male then "#1a202c" else "#2d3748"
  let head := headRadii gender
  let hair := hairEllipse gender
  { width := 400
    height := 600
    shapes :=
      [Shape.gradientRect 0 0 400 600,
       Shape.ellipse "rgba(0, 0, 0, 0.05)" 200 580 80 15 0,
       Shape.ellipse skinTone 200 80 head.1 head.2 0,
       Shape.ellipse hairColor 200 hair.1 hair.2.1 hair.2.2 0,
       Shape.ellipse "rgba(0, 0, 0, 0.1)" (200 - 12) 75 3 2 0,
       Shape.ellipse "rgba(0, 0, 0, 0.1)" (200 + 12) 75 3 2 0,
       Shape.ellipse "rgba(0, 0, 0, 0.1)" 200 85 2 3 0,
       Shape.ellipse "rgba(0, 0, 0, 0.1)" 200 95 4 2 0,
       Shape.rect skinTone (200 - 12) 115 24 30,
       Shape.poly skinTone (shoulderPoints gender),
       Shape.poly skinTone (torsoPoints gender),
       Shape.ellipse skinTone (200 - 60) 220 18 100 (-0.15) ,
       Shape.ellipse skinTone (200 + 60) 220 18 100 0.15,
       Shape.ellipse skinTone (200 - 60) 320 10 15 (-0.15) ,
       Shape.ellipse skinTone (200 + 60) 320 10 15 0.15,
       Shape.ellipse skinTone (200 - 20) 450 20 130 0,
       Shape.ellipse skinTone (200 + 20) 450 20 130 0,
       Shape.ellipse skinTone (200 - 20) 580 15 10 0,
       Shape.ellipse skinTone (200 + 20) 580 15 10 0] }

/-- Half of the width of the shoulder polygon's lower edge (the distance
between the two inner vertices, halved): 42 for male, 38 for female. -/
def shoulderLowerHalfWidth (gender : Gender) : ℚ :=
  match shoulderPoints gender with
  | [_, p1, p2, _] => (p2.1 - p1.1) / 2
  | _ => 0

/-- Garment cap of source `generateAITryOn` (lines 153-157): when more
than 5 garments are supplied to the remote adapter, only the first 5 are
sent to the external service. -/
def generateAITryOnGarments (garments : List GarmentInput) : List GarmentInput :=
  if garments.length > 5 then garments.take 5 else garments

/-- Placement switch inlined in source `composeTryOnImage`
(lines 493-515); its cases and values coincide with `getDefaultBox`. -/
def composeGarmentBox (garmentType : String) : PlacementBox :=
  if garmentType = "dress" then
    { x := 0.225, y := 0.08, width := 0.55, height := 0.82, rotationDeg := 0 }
  else if garmentType = "tshirt" ∨ garmentType = "top" then
    { x := 0.25, y := 0.18, width := 0.5, height := 0.4, rotationDeg := 0 }
  else if garmentType = "pants" then
    { x := 0.25, y := 0.35, width := 0.5, height := 0.45, rotationDeg := 0 }
  else if garmentType = "shorts" then
    { x := 0.25, y := 0.35, width := 0.5, height := 0.25, rotationDeg := 0 }
  else if garmentType = "footwear" then
    { x := 0.35, y := 0.78, width := 0.3, height := 0.18, rotationDeg := 0 }
  else if garmentType = "accessory" then
    { x := 0.4, y := 0.1, width := 0.2, height := 0.2, rotationDeg := 0 }
  else
    { x := 0.25, y := 0.2, width := 0.5, height := 0.5, rotationDeg := 0 }

/-- One garment layer drawn onto the composition canvas: the decoded
image, the placement box chosen for it and the absolute target
rectangle (lines 517-530). -/
structure Draw where
  img : Img
  box : PlacementBox
  x : ℚ
  y : ℚ
  w : ℚ
  h : ℚ
  rotated : Bool
deriving DecidableEq, Repr

/-- Target-rectangle computation and the rotation branch of the garment
loop (lines 517-530). -/
def mkGarmentDraw (canvasW canvasH : ℕ) (g : GarmentInput) (img : Img) : Draw :=
  let box := composeGarmentBox g.type
  let targetW : ℚ := (canvasW : ℚ) * box.width
  let targetH : ℚ := (canvasH : ℚ) * box.height
  let targetX : ℚ := (canvasW : ℚ) * box.x
  let targetY : ℚ := (canvasH : ℚ) * box.y
  if box.rotationDeg ≠ 0 then
    { img := img, box := box, x := -(targetW / 2), y := -(targetH / 2),
      w := targetW, h := targetH, rotated := true }
  else
    { img := img, box := box, x := targetX, y := targetY,
      w := targetW, h := targetH, rotated := false }

/-- Observable steps of one `composeTryOnImage` call, in execution
order. -/
inductive ComposeEvent where
  | remoteCall (sent : List GarmentInput)
  | modelRender (gender : Gender)
  | drawModelBase
  | drawGarment (d : Draw)
deriving DecidableEq, Repr

/-- The flattened composition result: canvas size and the garment layers
in draw order. -/
structure Composed where
  width : ℕ
  height : ℕ
  draws : List Draw
deriving DecidableEq, Repr

instance : DecidableEq (Except String Composed) := fun a b =>
  match a, b with
  | .error x, .error y =>
    if h : x = y then isTrue (by rw [h]) else isFalse (by simp [h])
  | .ok x, .ok y =>
    if h : x = y then isTrue (by rw [h]) else isFalse (by simp [h])
  | .error _, .ok _ => isFalse (by simp)
  | .ok _, .error _ => isFalse (by simp)

/-- Outcome of one `composeTryOnImage` call: whether the remote adapter
was invoked, the event trace, and the returned image or thrown error. -/
structure ComposeOutcome where
  remoteCalled : Bool
  events : List ComposeEvent
  result : Except String Composed
deriving DecidableEq, Repr

/-- Canvas fallback of source `composeTryOnImage` (lines 438-539): the
procedural model is rendered first, every garment url is decoded with
failures skipped, the call throws when no image decoded, and otherwise
garment index i of the original list is drawn with the image at index i
of the success-only list (the loop skips exactly the indices at or past
the success count, so the drawn pairs are the pointwise zip of the two
lists). -/
def composeFallback (load : String → Option Img)
    (garments : List GarmentInput) (gender : Gender) : ComposeOutcome :=
  let model := createStandardModelImage gender
  let garmentImages := garments.filterMap (fun g => load g.url)
  if garmentImages.length = 0 then
    { remoteCalled := false
      events := [.modelRender gender]
      result := .error "Failed to load any garment images" }
  else
    let draws := List.zipWith (mkGarmentDraw model.width model.height) garments garmentImages
    { remoteCalled := false
      events := [.modelRender gender, .drawModelBase] ++ draws.map ComposeEvent.drawGarment
      result := .ok { width := model.width, height := model.height, draws := draws } }

/-- Source `composeTryOnImage` (lines 394-540): when an API key is
configured and the garment list is non-empty, the remote adapter is
invoked on the (possibly capped) garment list and a usable remote image
is returned directly; in every other case, including a null or failed
remote result, the canvas fallback runs. -/
def composeTryOnImage (apiKey : Option String)
    (remote : List GarmentInput → Gender → Option Img)
    (load : String → Option Img)
    (garments : List GarmentInput) (gender : Gender) : ComposeOutcome :=
  match apiKey with
  | some _ =>
    if 0 < garments.length then
      let sent := generateAITryOnGarments garments
      match remote sent gender with
      | some img =>
        { remoteCalled := true
          events := [.remoteCall sent]
          result := .ok { width := img.width, height := img.height, draws := [] } }
      | none =>
        let fb := composeFallback load garments gender
        { remoteCalled := true
          events := .remoteCall sent :: fb.events
          result := fb.result }
    else composeFallback load garments gender
  | none => composeFallback load garments gender

/-- Mutable 2D-context fields touched by the garment drawing routine. -/
structure CtxState where
  globalAlpha : ℚ
  shadowColor : String
  shadowBlur : ℚ
  shadowOffsetX : ℚ
  shadowOffsetY : ℚ
deriving DecidableEq, Repr

/-- Context state in force at the moment a drawImage call executes,
plus whether the drawn bitmap went through background removal. -/
structure DrawEffect where
  globalAlpha : ℚ
  shadowColor : String
  shadowBlur : ℚ
  shadowOffsetX : ℚ
  shadowOffsetY : ℚ
  backgroundStripped : Bool
deriving DecidableEq, Repr

/-- Context-state semantics of source `drawGarmentWithBgRemoval`
(lines 542-616): when the offscreen context is unavailable the garment
is drawn directly at globalAlpha 0.95 with the context's current shadow
state; otherwise the stripped bitmap is drawn with shadow
rgba(0, 0, 0, 0.15)/blur 5/offset (2,3) at globalAlpha 0.98, after
which the four shadow fields are reset but globalAlpha is left at 0.98. -/
def drawGarmentWithBgRemoval (octxAvailable : Bool) (ctx : CtxState) :
    CtxState × DrawEffect :=
  if octxAvailable = false then
    let ctx1 : CtxState := { ctx with globalAlpha := 0.95 }
    (ctx1,
     { globalAlpha := ctx1.globalAlpha, shadowColor := ctx1.shadowColor,
       shadowBlur := ctx1.shadowBlur, shadowOffsetX := ctx1.shadowOffsetX,
       shadowOffsetY := ctx1.shadowOffsetY, backgroundStripped := false })
  else
    let ctx1 : CtxState :=
      { globalAlpha := 0.98, shadowColor := "rgba(0, 0, 0, 0.15)",
        shadowBlur := 5, shadowOffsetX := 2, shadowOffsetY := 3 }
    let eff : DrawEffect :=
      { globalAlpha := ctx1.globalAlpha, shadowColor := ctx1.shadowColor,
        shadowBlur := ctx1.shadowBlur, shadowOffsetX := ctx1.shadowOffsetX,
        shadowOffsetY := ctx1.shadowOffsetY, backgroundStripped := true }
    let ctx2 : CtxState :=
      { ctx1 with shadowColor := "transparent", shadowBlur := 0,
                  shadowOffsetX := 0, shadowOffsetY := 0 }
    (ctx2, eff)

/-- Image-loading oracle used in concrete evaluations of the index
misalignment: the url "good" decodes, every other url fails. -/
def loadC1 : String → Option Img := fun s =>
  if s = "good" then some { width := 80, height := 80, tag := "pants-image" } else none

theorem getDefaultBox_valid (t : String) : isValidBox (getDefaultBox t) = true := by
  unfold getDefaultBox
  split_ifs <;> simp only [isValidBox, decide_eq_true_eq] <;> norm_num

theorem getDefaultBox_unrecognized (t : String)
    (h : t ∉ ["dress", "tshirt", "top", "pants", "shorts", "footwear", "accessory"]) :
    getDefaultBox t = { x := 0.25, y := 0.2, width := 0.5, height := 0.5, rotationDeg := 0 } := by
  simp only [List.mem_cons, List.not_mem_nil, or_false, not_or] at h
  obtain ⟨h1, h2, h3, h4, h5, h6, h7⟩ := h
  unfold getDefaultBox
  rw [if_neg h1, if_neg (not_or.mpr ⟨h2, h3⟩), if_neg h4, if_neg h5, if_neg h6, if_neg h7]

theorem composeGarmentBox_eq_getDefaultBox (t : String) :
    composeGarmentBox t = getDefaultBox t := rfl

/-- Claim C3 counterexample: the string "tshirt" is not one of the six
enumerated categories, yet the table returns the top box for it rather
than the default box, so an unrecognized category does not always map to
the default. -/
theorem C3_placement_table_counterexample :
    "tshirt" ∉ ["dress", "top", "pants", "shorts", "footwear", "accessory"] ∧
    getDefaultBox "tshirt" ≠
      { x := 0.25, y := 0.2, width := 0.5, height := 0.5, rotationDeg := 0 } ∧
    getDefaultBox "tshirt" = getDefaultBox "top" := by
  refine ⟨by decide, ?_, rfl⟩
  have h18 : getDefaultBox "tshirt" =
      { x := 0.25, y := 0.18, width := 0.5, height := 0.4, rotationDeg := 0 } := rfl
  rw [h18]
  intro h
  have hy := congrArg PlacementBox.y h
  norm_num at hy

/-- Claim C3 (amended): the placement lookup is a pure, deterministic
table returning the spec values for the six categories; the alias
string "tshirt" is additionally recognized and returns the top box;
every other string returns the default box; every returned box has all
fractional fields in [0,1] and area at least 0.02; and the switch
inlined in the compositor agrees with the table everywhere. -/
theorem C3_placement_table :
    getDefaultBox "dress" =
      { x := 0.225, y := 0.08, width := 0.55, height := 0.82, rotationDeg := 0 } ∧
    getDefaultBox "top" =
      { x := 0.25, y := 0.18, width := 0.5, height := 0.4, rotationDeg := 0 } ∧
    getDefaultBox "pants" =
      { x := 0.25, y := 0.35, width := 0.5, height := 0.45, rotationDeg := 0 } ∧
    getDefaultBox "shorts" =
      { x := 0.25, y := 0.35, width := 0.5, height := 0.25, rotationDeg := 0 } ∧
    getDefaultBox "footwear" =
      { x := 0.35, y := 0.78, width := 0.3, height := 0.18, rotationDeg := 0 } ∧
    getDefaultBox "accessory" =
      { x := 0.4, y := 0.1, width := 0.2, height := 0.2, rotationDeg := 0 } ∧
    getDefaultBox "tshirt" = getDefaultBox "top" ∧
    (∀ t : String,
      t ∉ ["dress", "tshirt", "top", "pants", "shorts", "footwear", "accessory"] →
      getDefaultBox t =
        { x := 0.25, y := 0.2, width := 0.5, height := 0.5, rotationDeg := 0 }) ∧
    (∀ t : String, isValidBox (getDefaultBox t) = true) ∧
    (∀ t : String, composeGarmentBox t = getDefaultBox t) := by
  refine ⟨rfl, rfl, rfl, rfl, rfl, rfl, rfl,
    fun t ht => getDefaultBox_unrecognized t ht,
    fun t => getDefaultBox_valid t,
    fun t => composeGarmentBox_eq_getDefaultBox t⟩

/-- Claim C3 witness: the concrete unrecognized category "hat" gets the
default box, which satisfies the box invariants. -/
theorem C3_placement_table_witness :
    "hat" ∉ ["dress", "tshirt", "top", "pants", "shorts", "footwear", "accessory"] ∧
    getDefaultBox "hat" =
      { x := 0.25, y := 0.2, width := 0.5, height := 0.5, rotationDeg := 0 } ∧
    isValidBox (getDefaultBox "hat") = true :=
  ⟨by decide, C3_placement_table.2.2.2.2.2.2.2.1 "hat" (by decide),
   C3_placement_table.2.2.2.2.2.2.2.2.1 "hat"⟩

/-- Claim C6: the post-processing of an AI placement response always
yields a box satisfying the validation invariants; an unparsable
response or a clamped box failing validation is replaced by the lookup
table's box for the garment type, and no error reaches the caller. -/
theorem C6_ai_placement_validated (garmentType : String)
    (response : Option AIPlacementJson) :
    isValidBox (estimateGarmentPlacement garmentType response) = true ∧
    (response = none →
      estimateGarmentPlacement garmentType response = getDefaultBox garmentType) ∧
    (∀ json, response = some json →
      isValidBox { x := clamp01 json.x, y := clamp01 json.y,
                   width := clamp01 json.width, height := clamp01 json.height,
                   rotationDeg := json.rotationDeg.getD 0 } = false →
      estimateGarmentPlacement garmentType response = getDefaultBox garmentType) := by
  refine ⟨?_, ?_, ?_⟩
  · cases response with
    | none => exact getDefaultBox_valid garmentType
    | some json =>
      simp only [estimateGarmentPlacement]
      split
      · rename_i h
        exact h
      · exact getDefaultBox_valid garmentType
  · intro h
    subst h
    rfl
  · intro json h hval
    subst h
    simp only [estimateGarmentPlacement, hval, Bool.false_eq_true, if_false]

/-- Claim C6 witness: an unparsable response (modelled as `none`) is
replaced by the table's dress box, which satisfies the invariants. -/
theorem C6_ai_placement_validated_witness :
    ((none : Option AIPlacementJson) = none) ∧
    estimateGarmentPlacement "dress" none = getDefaultBox "dress" ∧
    isValidBox (estimateGarmentPlacement "dress" none) = true :=
  ⟨rfl, (C6_ai_placement_validated "dress" none).2.1 rfl,
   (C6_ai_placement_validated "dress" none).1⟩

/-- Claim C7: the procedural model renderer produces a 400x600 image
for both the male and the female gender, and the male shoulder polygon
inner half-width (42) exceeds the female one (38) by exactly 4 pixels. -/
theorem C7_model_dimensions_and_shoulders :
    (createStandardModelImage .male).width = 400 ∧
    (createStandardModelImage .male).height = 600 ∧
    (createStandardModelImage .female).width = 400 ∧
    (createStandardModelImage .female).height = 600 ∧
    shoulderLowerHalfWidth .male = 42 ∧
    shoulderLowerHalfWidth .female = 38 ∧
    shoulderLowerHalfWidth .male = shoulderLowerHalfWidth .female + 4 := by
  refine ⟨rfl, rfl, rfl, rfl, ?_, ?_, ?_⟩ <;>
    simp only [shoulderLowerHalfWidth, shoulderPoints] <;> norm_num

/-- Claim C9 counterexample: when the offscreen context is unavailable,
the garment draw happens at global alpha 0.95 with the context's
pre-existing shadow state (here blur 7), not with the fixed soft shadow
at alpha 0.98 the claim asserts for every garment draw. -/
theorem C9_shadow_counterexample :
    ¬ ((drawGarmentWithBgRemoval false
          { globalAlpha := 1, shadowColor := "transparent", shadowBlur := 7,
            shadowOffsetX := 1, shadowOffsetY := 1 }).2.globalAlpha = 0.98 ∧
       (drawGarmentWithBgRemoval false
          { globalAlpha := 1, shadowColor := "transparent", shadowBlur := 7,
            shadowOffsetX := 1, shadowOffsetY := 1 }).2.shadowBlur = 5) := by
  intro h
  have h1 : (0.95 : ℚ) = 0.98 := h.1
  norm_num at h1

/-- Claim C9 (amended): on the background-removal path (offscreen
context available) every garment draw applies the fixed soft drop
shadow rgba(0, 0, 0, 0.15) with blur 5 and offset (2,3), draws at
global alpha 0.98, and afterwards resets all four shadow fields so no
shadow state leaks to subsequent draws; when the offscreen context is
unavailable the garment is instead drawn directly at global alpha 0.95
under the context's existing shadow state, with no shadow setup or
reset. -/
theorem C9_shadow_per_draw (ctx : CtxState) :
    (drawGarmentWithBgRemoval true ctx).2 =
      { globalAlpha := 0.98, shadowColor := "rgba(0, 0, 0, 0.15)",
        shadowBlur := 5, shadowOffsetX := 2, shadowOffsetY := 3,
        backgroundStripped := true } ∧
    ((drawGarmentWithBgRemoval true ctx).1.shadowColor = "transparent" ∧
     (drawGarmentWithBgRemoval true ctx).1.shadowBlur = 0 ∧
     (drawGarmentWithBgRemoval true ctx).1.shadowOffsetX = 0 ∧
     (drawGarmentWithBgRemoval true ctx).1.shadowOffsetY = 0) ∧
    ((drawGarmentWithBgRemoval false ctx).2.globalAlpha = 0.95 ∧
     (drawGarmentWithBgRemoval false ctx).2.shadowColor = ctx.shadowColor ∧
     (drawGarmentWithBgRemoval false ctx).2.shadowBlur = ctx.shadowBlur ∧
     (drawGarmentWithBgRemoval false ctx).2.shadowOffsetX = ctx.shadowOffsetX ∧
     (drawGarmentWithBgRemoval false ctx).2.shadowOffsetY = ctx.shadowOffsetY ∧
     (drawGarmentWithBgRemoval false ctx).2.backgroundStripped = false) := by
  exact ⟨rfl, ⟨rfl, rfl, rfl, rfl⟩, ⟨rfl, rfl, rfl, rfl, rfl, rfl⟩⟩

/-- Claim C10: after the draw returns, the destination context's
globalAlpha stays at the reduced draw value (0.98 on the
background-removal path, 0.95 on the fallback path) for any incoming
context state — only the four shadow fields are restored to neutral
values on the main path, and nothing is restored on the fallback
path. -/
theorem C10_globalAlpha_not_restored (ctx : CtxState) :
    (drawGarmentWithBgRemoval true ctx).1.globalAlpha = 0.98 ∧
    (drawGarmentWithBgRemoval false ctx).1.globalAlpha = 0.95 ∧
    ((drawGarmentWithBgRemoval true ctx).1.shadowColor = "transparent" ∧
     (drawGarmentWithBgRemoval true ctx).1.shadowBlur = 0 ∧
     (drawGarmentWithBgRemoval true ctx).1.shadowOffsetX = 0 ∧
     (drawGarmentWithBgRemoval true ctx).1.shadowOffsetY = 0) ∧
    ((drawGarmentWithBgRemoval false ctx).1.shadowColor = ctx.shadowColor ∧
     (drawGarmentWithBgRemoval false ctx).1.shadowBlur = ctx.shadowBlur ∧
     (drawGarmentWithBgRemoval false ctx).1.shadowOffsetX = ctx.shadowOffsetX ∧
     (drawGarmentWithBgRemoval false ctx).1.shadowOffsetY = ctx.shadowOffsetY) := by
  exact ⟨rfl, rfl, ⟨rfl, rfl, rfl, rfl⟩, ⟨rfl, rfl, rfl, rfl⟩⟩

theorem one_le_scaledAlpha (a : ℕ) (ha : 0 < a) :
    1 ≤ min 255 (jsRound ((a : ℚ) * 0.99)).toNat := by
  have hc : (1 : ℚ) ≤ (a : ℚ) := by exact_mod_cast ha
  have h1 : (1 : ℚ) ≤ (a : ℚ) * 0.99 + 1/2 := by nlinarith
  have h2 : (1 : ℤ) ≤ jsRound ((a : ℚ) * 0.99) := by
    rw [jsRound]
    exact Int.le_floor.mpr (by exact_mod_cast h1)
  have h3 : 1 ≤ (jsRound ((a : ℚ) * 0.99)).toNat := by omega
  omega

theorem jsRound_zero_mul : jsRound (((0 : ℕ) : ℚ) * 0.99) = 0 := by
  rw [jsRound, Int.floor_eq_zero_iff]
  constructor <;> norm_num

/-- Claim C4: a pixel is zeroed exactly when one of the three
background conditions holds (stated for pixels with positive input
alpha, since a kept pixel with input alpha 0 also stays at alpha 0);
every non-background pixel gets alpha min(255, round(0.99 * a)); a
pixel with input alpha 0 keeps alpha 0; and a fully-saturated
(some channel at 0) mid-brightness (luma at most 210) pixel keeps its
alpha except for the 0.99 scale. -/
theorem C4_strip_pixel_alpha (r g b a : ℕ) :
    (isBackgroundPixel r g b → stripPixelAlpha r g b a = 0) ∧
    (¬ isBackgroundPixel r g b →
      stripPixelAlpha r g b a = min 255 (jsRound ((a : ℚ) * 0.99)).toNat) ∧
    (0 < a → (stripPixelAlpha r g b a = 0 ↔ isBackgroundPixel r g b)) ∧
    (a = 0 → stripPixelAlpha r g b a = 0) ∧
    (min (r : ℚ) (min (g : ℚ) (b : ℚ)) = 0 ∧
       0.299 * (r : ℚ) + 0.587 * (g : ℚ) + 0.114 * (b : ℚ) ≤ 210 →
      stripPixelAlpha r g b a = min 255 (jsRound ((a : ℚ) * 0.99)).toNat) := by
  have hbg : isBackgroundPixel r g b → stripPixelAlpha r g b a = 0 := by
    intro h
    simp only [isBackgroundPixel] at h
    simp only [stripPixelAlpha]
    split_ifs with h1 h2 h3
    · rfl
    · rfl
    · rfl
    · exact absurd h (by tauto)
  have hnbg : ¬ isBackgroundPixel r g b →
      stripPixelAlpha r g b a = min 255 (jsRound ((a : ℚ) * 0.99)).toNat := by
    intro h
    simp only [isBackgroundPixel] at h
    simp only [stripPixelAlpha]
    split_ifs with h1 h2 h3
    · exact absurd (Or.inl h1) h
    · exact absurd (Or.inr (Or.inl h2)) h
    · exact absurd (Or.inr (Or.inr h3)) h
    · rfl
  refine ⟨hbg, hnbg, ?_, ?_, ?_⟩
  · intro ha
    constructor
    · intro h0
      by_contra hn
      rw [hnbg hn] at h0
      have h1 := one_le_scaledAlpha a ha
      omega
    · exact hbg
  · intro ha0
    subst ha0
    by_cases h : isBackgroundPixel r g b
    · exact hbg h
    · rw [hnbg h, jsRound_zero_mul]
      rfl
  · rintro ⟨hmin, hbright⟩
    apply hnbg
    simp only [isBackgroundPixel]
    rintro (⟨h1, _⟩ | ⟨h1, _, _⟩ | ⟨h1, h2, h3⟩)
    · linarith
    · linarith
    · have hlt : (245 : ℚ) < min (r : ℚ) (min (g : ℚ) (b : ℚ)) :=
        lt_min h1 (lt_min h2 h3)
      rw [hmin] at hlt
      norm_num at hlt

/-- Claim C4 witness: the near-white pixel (250,250,250) with alpha 17
is classified exactly by the condition disjunction, and the
fully-saturated dark-red pixel (200,0,40) keeps its alpha up to the
0.99 scale. -/
theorem C4_strip_pixel_alpha_witness :
    (0 < 17 ∧ (stripPixelAlpha 250 250 250 17 = 0 ↔ isBackgroundPixel 250 250 250)) ∧
    ((min ((250 : ℕ) : ℚ) (min ((250 : ℕ) : ℚ) ((250 : ℕ) : ℚ)) =
        min ((250 : ℕ) : ℚ) (min ((250 : ℕ) : ℚ) ((250 : ℕ) : ℚ))) ∧
      stripPixelAlpha 200 0 40 17 = min 255 (jsRound ((17 : ℚ) * 0.99)).toNat) := by
  refine ⟨⟨by norm_num, (C4_strip_pixel_alpha 250 250 250 17).2.2.1 (by norm_num)⟩, rfl, ?_⟩
  have hmin : min ((200 : ℕ) : ℚ) (min ((0 : ℕ) : ℚ) ((40 : ℕ) : ℚ)) = 0 := by
    push_cast
    rw [min_eq_left (by norm_num : (0 : ℚ) ≤ 40)]
    rw [min_eq_right (by norm_num : (0 : ℚ) ≤ 200)]
  have hbright : 0.299 * ((200 : ℕ) : ℚ) + 0.587 * ((0 : ℕ) : ℚ) +
      0.114 * ((40 : ℕ) : ℚ) ≤ 210 := by push_cast; norm_num
  have h17 : ((17 : ℕ) : ℚ) = (17 : ℚ) := by push_cast; ring
  have := (C4_strip_pixel_alpha 200 0 40 17).2.2.2.2 ⟨hmin, hbright⟩
  rwa [h17] at this

theorem createStandardModelImage_width (gender : Gender) :
    (createStandardModelImage gender).width = 400 := rfl

theorem createStandardModelImage_height (gender : Gender) :
    (createStandardModelImage gender).height = 600 := rfl

theorem filterMap_load_eq_map (load : String → Option Img) (imgOf : GarmentInput → Img) :
    ∀ garments : List GarmentInput,
      (∀ g ∈ garments, load g.url = some (imgOf g)) →
      garments.filterMap (fun g => load g.url) = garments.map imgOf := by
  intro garments
  induction garments with
  | nil => intro _; rfl
  | cons g gs ih =>
    intro h
    have hg := h g (List.mem_cons_self g gs)
    have hgs := fun x hx => h x (List.mem_cons_of_mem g hx)
    simp [List.filterMap_cons, hg, ih hgs]

theorem zipWith_map_self {α β γ : Type} (f : α → β → γ) (g : α → β) :
    ∀ l : List α, List.zipWith f l (l.map g) = l.map (fun a => f a (g a)) := by
  intro l
  induction l with
  | nil => rfl
  | cons a as ih => simp [ih]

theorem composeFallback_all_loaded (load : String → Option Img)
    (garments : List GarmentInput) (gender : Gender) (imgOf : GarmentInput → Img)
    (hload : ∀ g ∈ garments, load g.url = some (imgOf g)) (hne : garments ≠ []) :
    composeFallback load garments gender =
      { remoteCalled := false
        events := [.modelRender gender, .drawModelBase] ++
          (garments.map (fun g => mkGarmentDraw 400 600 g (imgOf g))).map
            ComposeEvent.drawGarment
        result := .ok { width := 400, height := 600,
                        draws := garments.map (fun g => mkGarmentDraw 400 600 g (imgOf g)) } } := by
  have hfm : garments.filterMap (fun g => load g.url) = garments.map imgOf :=
    filterMap_load_eq_map load imgOf garments hload
  have hlen : (garments.map imgOf).length ≠ 0 := by
    rw [List.length_map]
    intro hc
    exact hne (List.length_eq_zero.mp hc)
  simp only [composeFallback, hfm, createStandardModelImage_width,
    createStandardModelImage_height]
  rw [if_neg hlen, zipWith_map_self]

/-- Claim C2 counterexample: with no API key, an empty garment list and
any oracles, the call does fail with the explicit error, but the
procedural model base image has already been rendered when the failure
is raised — the render event is in the trace. -/
theorem C2_empty_garments_counterexample :
    composeTryOnImage none (fun _ _ => none) (fun _ => none) [] .female =
      { remoteCalled := false, events := [.modelRender .female],
        result := .error "Failed to load any garment images" } ∧
    ComposeEvent.modelRender .female ∈
      (composeTryOnImage none (fun _ _ => none) (fun _ => none) [] .female).events :=
  ⟨rfl, List.Mem.head _⟩

/-- Claim C2 (amended): for every gender and any oracles, compose with
an empty garment list and no credential attempts no remote call and
fails with the explicit no-usable-garments error, but only after the
procedural model base image has been rendered. -/
theorem C2_empty_garments (remote : List GarmentInput → Gender → Option Img)
    (load : String → Option Img) (gender : Gender) :
    composeTryOnImage none remote load [] gender =
      { remoteCalled := false, events := [.modelRender gender],
        result := .error "Failed to load any garment images" } := rfl

/-- Claim C5: with no API key the remote adapter is never invoked (no
remote-call event in the trace) and the compositor processes every
supplied garment that decodes, in input order and each with the box of
its own category; the 5-garment cap is a property of the remote adapter
path alone, which always sends exactly the first 5 garments. -/
theorem C5_no_remote_without_key (remote : List GarmentInput → Gender → Option Img)
    (load : String → Option Img) (garments : List GarmentInput) (gender : Gender)
    (imgOf : GarmentInput → Img)
    (hload : ∀ g ∈ garments, load g.url = some (imgOf g)) (hne : garments ≠ []) :
    (composeTryOnImage none remote load garments gender).remoteCalled = false ∧
    (∀ s, ComposeEvent.remoteCall s ∉
      (composeTryOnImage none remote load garments gender).events) ∧
    (composeTryOnImage none remote load garments gender).result =
      .ok { width := 400, height := 600,
            draws := garments.map (fun g => mkGarmentDraw 400 600 g (imgOf g)) } ∧
    (∀ gs : List GarmentInput, generateAITryOnGarments gs = gs.take 5) := by
  have hfb := composeFallback_all_loaded load garments gender imgOf hload hne
  refine ⟨?_, ?_, ?_, ?_⟩
  · show (composeFallback load garments gender).remoteCalled = false
    rw [hfb]
  · intro s
    show ComposeEvent.remoteCall s ∉ (composeFallback load garments gender).events
    rw [hfb]
    simp
  · show (composeFallback load garments gender).result = _
    rw [hfb]
  · intro gs
    unfold generateAITryOnGarments
    split_ifs with h
    · rfl
    · exact (List.take_of_length_le (by omega)).symm

/-- Claim C5 witness: seven concrete garments, all decoding, with no
API key: no remote call, all seven drawn in order with their own
boxes, and the remote cap would have kept only the first five. -/
theorem C5_no_remote_without_key_witness :
    (∀ g ∈ ([⟨"u1", "dress"⟩, ⟨"u2", "top"⟩, ⟨"u3", "pants"⟩, ⟨"u4", "shorts"⟩,
             ⟨"u5", "footwear"⟩, ⟨"u6", "accessory"⟩, ⟨"u7", "top"⟩] : List GarmentInput),
      (fun s => some { width := 10, height := 10, tag := s }) g.url =
        some ((fun g : GarmentInput => { width := 10, height := 10, tag := g.url : Img }) g)) ∧
    ([⟨"u1", "dress"⟩, ⟨"u2", "top"⟩, ⟨"u3", "pants"⟩, ⟨"u4", "shorts"⟩,
      ⟨"u5", "footwear"⟩, ⟨"u6", "accessory"⟩, ⟨"u7", "top"⟩] : List GarmentInput) ≠ [] ∧
    (composeTryOnImage none (fun _ _ => none)
        (fun s => some { width := 10, height := 10, tag := s })
        [⟨"u1", "dress"⟩, ⟨"u2", "top"⟩, ⟨"u3", "pants"⟩, ⟨"u4", "shorts"⟩,
         ⟨"u5", "footwear"⟩, ⟨"u6", "accessory"⟩, ⟨"u7", "top"⟩] .female).remoteCalled = false ∧
    (composeTryOnImage none (fun _ _ => none)
        (fun s => some { width := 10, height := 10, tag := s })
        [⟨"u1", "dress"⟩, ⟨"u2", "top"⟩, ⟨"u3", "pants"⟩, ⟨"u4", "shorts"⟩,
         ⟨"u5", "footwear"⟩, ⟨"u6", "accessory"⟩, ⟨"u7", "top"⟩] .female).result =
      .ok { width := 400, height := 600,
            draws := ([⟨"u1", "dress"⟩, ⟨"u2", "top"⟩, ⟨"u3", "pants"⟩, ⟨"u4", "shorts"⟩,
                       ⟨"u5", "footwear"⟩, ⟨"u6", "accessory"⟩,
                       ⟨"u7", "top"⟩] : List GarmentInput).map
              (fun g => mkGarmentDraw 400 600 g
                { width := 10, height := 10, tag := g.url }) } ∧
    generateAITryOnGarments
        [⟨"u1", "dress"⟩, ⟨"u2", "top"⟩, ⟨"u3", "pants"⟩, ⟨"u4", "shorts"⟩,
         ⟨"u5", "footwear"⟩, ⟨"u6", "accessory"⟩, ⟨"u7", "top"⟩] =
      ([⟨"u1", "dress"⟩, ⟨"u2", "top"⟩, ⟨"u3", "pants"⟩, ⟨"u4", "shorts"⟩,
        ⟨"u5", "footwear"⟩, ⟨"u6", "accessory"⟩,
        ⟨"u7", "top"⟩] : List GarmentInput).take 5 := by
  have h := C5_no_remote_without_key (fun _ _ => none)
    (fun s => some { width := 10, height := 10, tag := s })
    [⟨"u1", "dress"⟩, ⟨"u2", "top"⟩, ⟨"u3", "pants"⟩, ⟨"u4", "shorts"⟩,
     ⟨"u5", "footwear"⟩, ⟨"u6", "accessory"⟩, ⟨"u7", "top"⟩] .female
    (fun g : GarmentInput => { width := 10, height := 10, tag := g.url })
    (fun g _ => rfl) (List.cons_ne_nil _ _)
  exact ⟨fun g _ => rfl, List.cons_ne_nil _ _, h.1, h.2.2.1, h.2.2.2 _⟩

/-- Claim C8: compose with one decodable garment, gender female and no
API key returns, without error, an image of the procedural model's
native 400x600 size. -/
theorem C8_single_garment (remote : List GarmentInput → Gender → Option Img)
    (load : String → Option Img) (g : GarmentInput) (img : Img)
    (h : load g.url = some img) :
    (composeTryOnImage none remote load [g] .female).result =
      .ok { width := 400, height := 600, draws := [mkGarmentDraw 400 600 g img] } := by
  have hfb := composeFallback_all_loaded load [g] .female (fun _ => img)
    (by intro x hx; rcases List.mem_singleton.mp hx with rfl; exact h)
    (List.cons_ne_nil _ _)
  show (composeFallback load [g] .female).result = _
  rw [hfb]
  rfl

/-- Claim C8 witness: a concrete decodable dress garment composes to a
400x600 image without error. -/
theorem C8_single_garment_witness :
    ((fun s => if s = "u" then some (Img.mk 100 100 "i") else none)
        (GarmentInput.mk "u" "dress").url = some (Img.mk 100 100 "i")) ∧
    (composeTryOnImage none (fun _ _ => none)
        (fun s => if s = "u" then some (Img.mk 100 100 "i") else none)
        [GarmentInput.mk "u" "dress"] .female).result =
      .ok { width := 400, height := 600,
            draws := [mkGarmentDraw 400 600 (GarmentInput.mk "u" "dress")
                        (Img.mk 100 100 "i")] } :=
  ⟨rfl, C8_single_garment _ _ _ _ rfl⟩

/-- Claim C1: at the failing input — a first garment whose image fails
to decode followed by a second garment (pants) that decodes — the call
returns without error, but the compositor's index misalignment draws
the decoded pants image once using the placement box of the FAILED
garment's category (top), which differs from the pants box; the
successful garment is not drawn with the box of its own category,
contradicting the claim and the code's own skip-failed-garment intent. -/
theorem C1_index_misalignment :
    (composeTryOnImage none (fun _ _ => none) loadC1
        [{ url := "bad", type := "top" }, { url := "good", type := "pants" }] .female).result =
      .ok { width := 400, height := 600,
            draws := [mkGarmentDraw 400 600 { url := "bad", type := "top" }
                        { width := 80, height := 80, tag := "pants-image" }] } ∧
    (mkGarmentDraw 400 600 { url := "bad", type := "top" }
        { width := 80, height := 80, tag := "pants-image" }).box = composeGarmentBox "top" ∧
    composeGarmentBox "top" ≠ composeGarmentBox "pants" := by
  refine ⟨rfl, rfl, ?_⟩
  have e1 : composeGarmentBox "top" =
      { x := 0.25, y := 0.18, width := 0.5, height := 0.4, rotationDeg := 0 } := rfl
  have e2 : composeGarmentBox "pants" =
      { x := 0.25, y := 0.35, width := 0.5, height := 0.45, rotationDeg := 0 } := rfl
  rw [e1, e2]
  intro h
  have hy := congrArg PlacementBox.y h
  norm_num at hy

end Closetly
